import Mathlib

/-!
Shallow embedding of `crates/slingshot/src/rg/pass_api.rs`: the pass-execution
and resource-binding layer of the render-graph engine.  Device interaction is
modelled as a trace of recorded commands (`Cmd`) carried in an explicit
`ExecState`; descriptor pools and sets are modelled by allocation counters;
panics (`unimplemented!`, Rust debug-mode arithmetic overflow, division by
zero) are modelled by `Option`, with `none` standing for process termination.
Vulkan handles (pipelines, layouts, image views, buffers, descriptor sets) are
opaque and modelled as `Nat`.
-/

namespace PassApi

/-- `vk::ImageLayout`: only the two layouts this layer produces, plus a
catch-all for every other Vulkan layout code. -/
inductive ImageLayout where
  | shaderReadOnlyOptimal
  | general
  | other (code : Nat)
deriving DecidableEq, Repr

/-- `vk::DescriptorType`: the three types materialization can resolve. -/
inductive DescriptorType where
  | sampledImage
  | storageImage
  | storageBuffer
deriving DecidableEq, Repr

/-- `vk::WHOLE_SIZE` (`u64::MAX`). -/
def wholeSize : Nat := 2 ^ 64 - 1

/-- Largest `u32` value. -/
def u32Max : Nat := 2 ^ 32 - 1

/-- `vk::DescriptorImageInfo` as built in the pipeline-bind conversion loop. -/
structure DescriptorImageInfo where
  imageLayout : ImageLayout
  imageView : Nat
deriving DecidableEq, Repr

/-- `vk::DescriptorBufferInfo` as built in the pipeline-bind conversion loop. -/
structure DescriptorBufferInfo where
  buffer : Nat
  range : Nat
deriving DecidableEq, Repr

/-- `DescriptorSetBinding` from `pass_api.rs`. -/
inductive DescriptorSetBinding where
  | Image (info : DescriptorImageInfo)
  | Buffer (info : DescriptorBufferInfo)
deriving DecidableEq, Repr

/-- `vk::WriteDescriptorSet` restricted to the fields this layer fills in. -/
structure WriteDescriptorSet where
  dstSet : Nat
  dstBinding : Nat
  dstArrayElement : Nat
  descriptorType : DescriptorType
  payload : DescriptorSetBinding
deriving DecidableEq, Repr

/-- A device command recorded onto the command buffer. -/
inductive Cmd where
  | bindPipeline (bindPoint pipeline : Nat)
  | bindDescriptorSets (bindPoint pipelineLayout setIndex : Nat)
      (sets : List Nat) (dynamicOffsets : List Nat)
  | updateDescriptorSets (writes : List WriteDescriptorSet)
  | dispatch (x y z : Nat)
deriving DecidableEq, Repr

/-- `true` exactly on `Cmd.bindDescriptorSets` commands. -/
def Cmd.isBindDescriptorSets : Cmd → Bool
  | .bindDescriptorSets _ _ _ _ _ => true
  | _ => false

/-- The observable state threaded through execution: the recorded command
trace, allocator counters for descriptor pools and sets, the deferred-release
queue of pools, and the diagnostic log (set indices reported missing). -/
structure ExecState where
  trace : List Cmd
  nextPoolId : Nat
  nextSetId : Nat
  deferredRelease : List Nat
  log : List Nat
deriving DecidableEq, Repr

/-- `ShaderPipelineCommon`: the layout metadata this layer reads.  Each entry
of `setLayoutInfo` is the list of declared binding indices of that set
(mirroring the `Vec<HashMap<u32, _>>`, of which only `contains_key` and
`is_empty` are consulted). -/
structure ShaderPipelineCommon where
  pipeline : Nat
  pipelineLayout : Nat
  pipelineBindPoint : Nat
  setLayoutInfo : List (List Nat)
  descriptorSetLayouts : List Nat
deriving DecidableEq, Repr

/-- `[u32; 3]` for group sizes and thread counts. -/
structure UVec3 where
  x : Nat
  y : Nat
  z : Nat
deriving DecidableEq, Repr

/-- `ComputePipeline`: common layout metadata plus the declared group size. -/
structure ComputePipeline where
  common : ShaderPipelineCommon
  groupSize : UVec3
deriving DecidableEq, Repr

/-- `RasterPipeline`: only the common layout metadata is consulted here. -/
structure RasterPipeline where
  common : ShaderPipelineCommon
deriving DecidableEq, Repr

/-- `RenderPassImageBinding`. -/
structure RenderPassImageBinding where
  handle : Nat
  viewDesc : Nat
  imageLayout : ImageLayout
deriving DecidableEq, Repr

/-- `RenderPassBufferBinding`. -/
structure RenderPassBufferBinding where
  handle : Nat
deriving DecidableEq, Repr

/-- `RenderPassBinding`. -/
inductive RenderPassBinding where
  | Image (b : RenderPassImageBinding)
  | Buffer (b : RenderPassBufferBinding)
deriving DecidableEq, Repr

/-- `Ref<Image, GpuSrv>`. -/
structure RefImageSrv where
  handle : Nat
deriving DecidableEq, Repr

/-- `Ref<Image, GpuUav>`. -/
structure RefImageUav where
  handle : Nat
deriving DecidableEq, Repr

/-- `Ref<Buffer, GpuSrv>`. -/
structure RefBufferSrv where
  handle : Nat
deriving DecidableEq, Repr

/-- `Ref<Buffer, GpuUav>`. -/
structure RefBufferUav where
  handle : Nat
deriving DecidableEq, Repr

/-- `Ref<Image, GpuSrv>::bind`: shader-read image, layout
SHADER_READ_ONLY_OPTIMAL. -/
def RefImageSrv.bind (r : RefImageSrv) (view_desc : Nat) : RenderPassBinding :=
  .Image { handle := r.handle, viewDesc := view_desc,
           imageLayout := .shaderReadOnlyOptimal }

/-- `Ref<Image, GpuUav>::bind`: shader-write image, layout GENERAL. -/
def RefImageUav.bind (r : RefImageUav) (view_desc : Nat) : RenderPassBinding :=
  .Image { handle := r.handle, viewDesc := view_desc, imageLayout := .general }

/-- `Ref<Buffer, GpuSrv>::bind`. -/
def RefBufferSrv.bind (r : RefBufferSrv) : RenderPassBinding :=
  .Buffer { handle := r.handle }

/-- `Ref<Buffer, GpuUav>::bind`. -/
def RefBufferUav.bind (r : RefBufferUav) : RenderPassBinding :=
  .Buffer { handle := r.handle }

/-- Modelled from the spec: the `ResourceRegistry` / execution-params
collaborator (its implementation lives outside this file's source): pipeline
resolution by handle, image-view resolution, buffer resolution for the
shader-read (`GpuSrv`) and shader-write (`GpuUav`) access paths, and the
process-wide per-frame descriptor set with its dynamic offset. -/
structure ResourceRegistry where
  computePipelines : Nat → ComputePipeline
  rasterPipelines : Nat → RasterPipeline
  imageView : Nat → Nat → Nat
  bufferRawSrv : Nat → Nat
  bufferRawUav : Nat → Nat
  frameDescriptorSet : Nat
  frameConstantsOffset : Nat

/-- `RenderPassComputePipelineBinding`. -/
structure RenderPassComputePipelineBinding where
  pipeline : Nat
  bindings : List (Nat × List RenderPassBinding)
  raw_bindings : List (Nat × Nat)
deriving DecidableEq, Repr

/-- `RenderPassComputePipelineBinding::new`. -/
def RenderPassComputePipelineBinding.new (pipeline : Nat) :
    RenderPassComputePipelineBinding :=
  { pipeline := pipeline, bindings := [], raw_bindings := [] }

/-- `RenderPassComputePipelineBinding::descriptor_set`: pushes one pair. -/
def RenderPassComputePipelineBinding.descriptor_set
    (b : RenderPassComputePipelineBinding) (set_idx : Nat)
    (bindings : List RenderPassBinding) : RenderPassComputePipelineBinding :=
  { b with bindings := b.bindings ++ [(set_idx, bindings)] }

/-- `RenderPassComputePipelineBinding::raw_descriptor_set`. -/
def RenderPassComputePipelineBinding.raw_descriptor_set
    (b : RenderPassComputePipelineBinding) (set_idx : Nat) (binding : Nat) :
    RenderPassComputePipelineBinding :=
  { b with raw_bindings := b.raw_bindings ++ [(set_idx, binding)] }

/-- `RenderPassRasterPipelineBinding`. -/
structure RenderPassRasterPipelineBinding where
  pipeline : Nat
  bindings : List (Nat × List RenderPassBinding)
  raw_bindings : List (Nat × Nat)
deriving DecidableEq, Repr

/-- `RenderPassRasterPipelineBinding::new`. -/
def RenderPassRasterPipelineBinding.new (pipeline : Nat) :
    RenderPassRasterPipelineBinding :=
  { pipeline := pipeline, bindings := [], raw_bindings := [] }

/-- `RenderPassRasterPipelineBinding::descriptor_set`: pushes one pair. -/
def RenderPassRasterPipelineBinding.descriptor_set
    (b : RenderPassRasterPipelineBinding) (set_idx : Nat)
    (bindings : List RenderPassBinding) : RenderPassRasterPipelineBinding :=
  { b with bindings := b.bindings ++ [(set_idx, bindings)] }

/-- `RenderPassRasterPipelineBinding::raw_descriptor_set`. -/
def RenderPassRasterPipelineBinding.raw_descriptor_set
    (b : RenderPassRasterPipelineBinding) (set_idx : Nat) (binding : Nat) :
    RenderPassRasterPipelineBinding :=
  { b with raw_bindings := b.raw_bindings ++ [(set_idx, binding)] }

/-- One arm of the `match binding` inside `bind_descriptor_set`'s write
construction: resolve the descriptor type from the binding's tag and image
layout.  `none` models the `unimplemented!` panic on any other layout. -/
def resolveWrite (descriptor_set binding_idx : Nat)
    (binding : DescriptorSetBinding) : Option WriteDescriptorSet :=
  match binding with
  | .Image info =>
    match info.imageLayout with
    | .shaderReadOnlyOptimal =>
        some { dstSet := descriptor_set, dstBinding := binding_idx,
               dstArrayElement := 0, descriptorType := .sampledImage,
               payload := binding }
    | .general =>
        some { dstSet := descriptor_set, dstBinding := binding_idx,
               dstArrayElement := 0, descriptorType := .storageImage,
               payload := binding }
    | .other _ => none
  | .Buffer _ =>
      some { dstSet := descriptor_set, dstBinding := binding_idx,
             dstArrayElement := 0, descriptorType := .storageBuffer,
             payload := binding }

/-- The `map ... collect` over the retained `(binding_idx, binding)` pairs. -/
def resolveWrites (descriptor_set : Nat) :
    List (Nat × DescriptorSetBinding) → Option (List WriteDescriptorSet)
  | [] => some []
  | p :: rest =>
    match resolveWrite descriptor_set p.1 p.2, resolveWrites descriptor_set rest with
    | some w, some ws => some (w :: ws)
    | _, _ => none

/-- The `descriptor_writes` computation of `bind_descriptor_set`: enumerate
the supplied bindings, keep only indices declared in the set's layout info,
and resolve each retained binding to a write. -/
def descriptorWrites (shader_set_info : List Nat) (descriptor_set : Nat)
    (bindings : List DescriptorSetBinding) : Option (List WriteDescriptorSet) :=
  resolveWrites descriptor_set
    (bindings.enum.filter (fun p => shader_set_info.contains p.1))

/-- `bind_descriptor_set` (Descriptor Set Materialization).  If the set index
is absent from the layout, log and return; otherwise allocate a transient pool
(deferred-released) and one set, compute the filtered writes (`none` = panic on
an unsupported image layout), submit them, and bind the set with no dynamic
offsets. -/
def bind_descriptor_set (pipeline : ShaderPipelineCommon) (set_index : Nat)
    (bindings : List DescriptorSetBinding) (st : ExecState) : Option ExecState :=
  match pipeline.setLayoutInfo.get? set_index with
  | none => some { st with log := st.log ++ [set_index] }
  | some shader_set_info =>
    match descriptorWrites shader_set_info st.nextSetId bindings with
    | none => none
    | some writes =>
      some { st with
        nextPoolId := st.nextPoolId + 1
        nextSetId := st.nextSetId + 1
        deferredRelease := st.deferredRelease ++ [st.nextPoolId]
        trace := st.trace ++
          [Cmd.updateDescriptorSets writes,
           Cmd.bindDescriptorSets pipeline.pipelineBindPoint
             pipeline.pipelineLayout set_index [st.nextSetId] []] }

/-- The per-binding conversion closure of `bind_compute_pipeline` /
`bind_raster_pipeline`: images resolve their view through the registry, keeping
their layout; buffers resolve through `buffer_from_raw_handle::<GpuSrv>` and
cover `WHOLE_SIZE`. -/
def convertBinding (res : ResourceRegistry) : RenderPassBinding → DescriptorSetBinding
  | .Image image =>
      .Image { imageLayout := image.imageLayout,
               imageView := res.imageView image.handle image.viewDesc }
  | .Buffer buffer =>
      .Buffer { buffer := res.bufferRawSrv buffer.handle, range := wholeSize }

/-- The frame-constants condition:
`set_layout_info.get(2).map(|s| !s.is_empty()).unwrap_or_default()`. -/
def frameConstantsNeeded (pl : ShaderPipelineCommon) : Bool :=
  match pl.setLayoutInfo.get? 2 with
  | some s => !s.isEmpty
  | none => false

/-- The commands emitted by the frame-constants step: the per-frame set bound
at set index 2 with its dynamic offset, or nothing. -/
def frameConstantsCmds (res : ResourceRegistry) (pl : ShaderPipelineCommon) :
    List Cmd :=
  if frameConstantsNeeded pl then
    [Cmd.bindDescriptorSets pl.pipelineBindPoint pl.pipelineLayout 2
      [res.frameDescriptorSet] [res.frameConstantsOffset]]
  else []

/-- The `for (set_index, bindings) in binding.bindings` loop: convert each
pair's bindings and materialize them, in declaration order. -/
def bindDeclaredSets (res : ResourceRegistry) (pl : ShaderPipelineCommon) :
    List (Nat × List RenderPassBinding) → ExecState → Option ExecState
  | [], st => some st
  | p :: rest, st =>
    match bind_descriptor_set pl p.1 (p.2.map (convertBinding res)) st with
    | none => none
    | some st2 => bindDeclaredSets res pl rest st2

/-- The `for (set_idx, binding) in binding.raw_bindings` loop of
`bind_compute_pipeline`: one direct bind per raw override, no writes, no
dynamic offsets. -/
def rawBindCmds (pl : ShaderPipelineCommon) (raw : List (Nat × Nat)) : List Cmd :=
  raw.map (fun p =>
    Cmd.bindDescriptorSets pl.pipelineBindPoint pl.pipelineLayout p.1 [p.2] [])

/-- `RenderPassApi::bind_compute_pipeline`: bind the pipeline, auto-bind frame
constants when set 2 is declared non-empty, materialize each declared set in
order, then bind each raw override. -/
def bind_compute_pipeline (res : ResourceRegistry)
    (binding : RenderPassComputePipelineBinding) (st : ExecState) :
    Option (ExecState × ComputePipeline) :=
  let pipeline := res.computePipelines binding.pipeline
  let pl := pipeline.common
  let st1 : ExecState :=
    { st with trace := st.trace ++ [Cmd.bindPipeline pl.pipelineBindPoint pl.pipeline]
        ++ frameConstantsCmds res pl }
  match bindDeclaredSets res pl binding.bindings st1 with
  | none => none
  | some st2 =>
      some ({ st2 with trace := st2.trace ++ rawBindCmds pl binding.raw_bindings },
            pipeline)

/-- `RenderPassApi::bind_raster_pipeline`: as the compute variant but — as in
the source — the accumulated `raw_bindings` are never read: no loop over them
exists and no command is emitted for them. -/
def bind_raster_pipeline (res : ResourceRegistry)
    (binding : RenderPassRasterPipelineBinding) (st : ExecState) :
    Option (ExecState × RasterPipeline) :=
  let pipeline := res.rasterPipelines binding.pipeline
  let pl := pipeline.common
  let st1 : ExecState :=
    { st with trace := st.trace ++ [Cmd.bindPipeline pl.pipelineBindPoint pl.pipeline]
        ++ frameConstantsCmds res pl }
  match bindDeclaredSets res pl binding.bindings st1 with
  | none => none
  | some st2 => some (st2, pipeline)

/-- One axis of `BoundComputePipeline::dispatch`:
`(threads + group_size - 1) / group_size` in `u32` arithmetic with Rust
debug-build semantics.  `none` models a panic: overflow of the addition,
underflow of the subtraction, or division by zero. -/
def checkedDispatchAxis (threads group_size : Nat) : Option Nat :=
  if threads + group_size > u32Max then none
  else if threads + group_size = 0 then none
  else if group_size = 0 then none
  else some ((threads + group_size - 1) / group_size)

/-- `BoundComputePipeline::dispatch`: per-axis checked group counts, then one
`cmd_dispatch` recorded. -/
def dispatch (pipeline : ComputePipeline) (threads : UVec3) (st : ExecState) :
    Option ExecState :=
  match checkedDispatchAxis threads.x pipeline.groupSize.x,
        checkedDispatchAxis threads.y pipeline.groupSize.y,
        checkedDispatchAxis threads.z pipeline.groupSize.z with
  | some gx, some gy, some gz =>
      some { st with trace := st.trace ++ [Cmd.dispatch gx gy gz] }
  | _, _, _ => none

/-! ### Helper lemmas -/

theorem resolveWrite_dstBinding (ds idx : Nat) (b : DescriptorSetBinding)
    (w : WriteDescriptorSet) (h : resolveWrite ds idx b = some w) :
    w.dstBinding = idx := by
  cases b with
  | Image info =>
    cases hl : info.imageLayout <;> simp [resolveWrite, hl] at h <;>
      simp [← h]
  | Buffer info =>
    simp [resolveWrite] at h
    simp [← h]

theorem resolveWrites_map_dstBinding (ds : Nat) :
    ∀ (l : List (Nat × DescriptorSetBinding)) (ws : List WriteDescriptorSet),
      resolveWrites ds l = some ws →
      ws.map WriteDescriptorSet.dstBinding = l.map Prod.fst := by
  intro l
  induction l with
  | nil => intro ws h; simp [resolveWrites] at h; simp [← h]
  | cons p rest ih =>
    intro ws h
    simp only [resolveWrites] at h
    cases hw : resolveWrite ds p.1 p.2 with
    | none => rw [hw] at h; simp at h
    | some w =>
      cases hws : resolveWrites ds rest with
      | none => rw [hw, hws] at h; simp at h
      | some ws2 =>
        rw [hw, hws] at h
        simp only [Option.some.injEq] at h
        subst h
        simp [ih ws2 hws, resolveWrite_dstBinding ds p.1 p.2 w hw]

theorem enumFrom_filter_fst (q : Nat → Bool) :
    ∀ (l : List DescriptorSetBinding) (n : Nat),
      ((List.enumFrom n l).filter (fun p => q p.1)).map Prod.fst
        = (List.range' n l.length).filter q := by
  intro l
  induction l with
  | nil => intro n; simp
  | cons a l ih =>
    intro n
    simp only [List.enumFrom, List.length_cons, List.range']
    cases hq : q n <;> simp [List.filter, hq, ih (n + 1)]

theorem descriptorWrites_map_dstBinding (info : List Nat) (ds : Nat)
    (bindings : List DescriptorSetBinding) (writes : List WriteDescriptorSet)
    (h : descriptorWrites info ds bindings = some writes) :
    writes.map WriteDescriptorSet.dstBinding
      = (List.range bindings.length).filter (fun i => info.contains i) := by
  have hm := resolveWrites_map_dstBinding ds _ writes h
  rw [hm]
  have : bindings.enum = List.enumFrom 0 bindings := rfl
  rw [this, enumFrom_filter_fst (fun i => info.contains i) bindings 0,
    List.range_eq_range']

theorem bind_descriptor_set_trace_ext (pl : ShaderPipelineCommon)
    (set_index : Nat) (bindings : List DescriptorSetBinding)
    (st st2 : ExecState) (h : bind_descriptor_set pl set_index bindings st = some st2) :
    ∃ ext, st2.trace = st.trace ++ ext := by
  unfold bind_descriptor_set at h
  split at h
  · simp only [Option.some.injEq] at h
    exact ⟨[], by simp [← h]⟩
  · split at h
    · simp at h
    · simp only [Option.some.injEq] at h
      exact ⟨_, by rw [← h]⟩

theorem bind_descriptor_set_success (pl : ShaderPipelineCommon)
    (set_index : Nat) (bindings : List DescriptorSetBinding)
    (st st2 : ExecState) (info : List Nat)
    (hinfo : pl.setLayoutInfo.get? set_index = some info)
    (h : bind_descriptor_set pl set_index bindings st = some st2) :
    ∃ writes, descriptorWrites info st.nextSetId bindings = some writes ∧
      st2 = { st with
        nextPoolId := st.nextPoolId + 1
        nextSetId := st.nextSetId + 1
        deferredRelease := st.deferredRelease ++ [st.nextPoolId]
        trace := st.trace ++
          [Cmd.updateDescriptorSets writes,
           Cmd.bindDescriptorSets pl.pipelineBindPoint pl.pipelineLayout
             set_index [st.nextSetId] []] } := by
  unfold bind_descriptor_set at h
  split at h
  · next hg => rw [hinfo] at hg; cases hg
  · next shader_set_info hg =>
    rw [hinfo] at hg
    cases hg
    split at h
    · cases h
    · next writes hw =>
      simp only [Option.some.injEq] at h
      exact ⟨writes, hw, h.symm⟩

theorem checkedDispatchAxis_eq_ceilDiv (t g v : Nat)
    (h : checkedDispatchAxis t g = some v) : v = t ⌈/⌉ g := by
  unfold checkedDispatchAxis at h
  split at h
  · cases h
  · split at h
    · cases h
    · split at h
      · cases h
      · simp only [Option.some.injEq] at h
        rw [← h, Nat.ceilDiv_eq_add_pred_div]

theorem bindDeclaredSets_trace_ext (res : ResourceRegistry)
    (pl : ShaderPipelineCommon) :
    ∀ (pairs : List (Nat × List RenderPassBinding)) (st st2 : ExecState),
      bindDeclaredSets res pl pairs st = some st2 →
      ∃ ext, st2.trace = st.trace ++ ext := by
  intro pairs
  induction pairs with
  | nil =>
    intro st st2 h
    simp only [bindDeclaredSets, Option.some.injEq] at h
    exact ⟨[], by simp [← h]⟩
  | cons p rest ih =>
    intro st st2 h
    simp only [bindDeclaredSets] at h
    cases hb : bind_descriptor_set pl p.1 (p.2.map (convertBinding res)) st with
    | none => rw [hb] at h; simp at h
    | some stm =>
      rw [hb] at h
      obtain ⟨e1, he1⟩ := bind_descriptor_set_trace_ext pl p.1 _ st stm hb
      obtain ⟨e2, he2⟩ := ih stm st2 h
      exact ⟨e1 ++ e2, by rw [he2, he1, List.append_assoc]⟩

/-! ### Concrete fixtures used by witnesses and counterexamples -/

/-- The empty starting execution state. -/
def st0 : ExecState :=
  { trace := [], nextPoolId := 0, nextSetId := 0, deferredRelease := [], log := [] }

/-- A pipeline layout declaring only binding index 0 at set 0. -/
def pl0 : ShaderPipelineCommon :=
  { pipeline := 1, pipelineLayout := 2, pipelineBindPoint := 3,
    setLayoutInfo := [[0]], descriptorSetLayouts := [4] }

/-- A pipeline layout with no sets at all. -/
def plE : ShaderPipelineCommon :=
  { pipeline := 10, pipelineLayout := 11, pipelineBindPoint := 12,
    setLayoutInfo := [], descriptorSetLayouts := [] }

/-- A buffer descriptor binding covering the whole buffer. -/
def bufBinding (h : Nat) : DescriptorSetBinding :=
  .Buffer { buffer := h, range := wholeSize }

/-- A pipeline layout declaring binding 0 at set 0, nothing at set 1, and a
non-empty set 2 (the frame-constants slot). -/
def plF : ShaderPipelineCommon :=
  { pipeline := 20, pipelineLayout := 21, pipelineBindPoint := 22,
    setLayoutInfo := [[0], [], [3]], descriptorSetLayouts := [5, 6, 7] }

/-- A compute pipeline with group size `[64, 1, 1]` and a frame-constants
slot. -/
def cp1 : ComputePipeline := { common := plF, groupSize := { x := 64, y := 1, z := 1 } }

/-- A compute pipeline with group size `[1, 1, 1]`. -/
def cp2 : ComputePipeline := { common := plE, groupSize := { x := 1, y := 1, z := 1 } }

/-- A raster pipeline with no declared sets. -/
def rp1 : RasterPipeline := { common := plE }

/-- A concrete registry resolving every compute handle to `cp1` and every
raster handle to `rp1`. -/
def res1 : ResourceRegistry :=
  { computePipelines := fun _ => cp1, rasterPipelines := fun _ => rp1,
    imageView := fun h vd => h + vd, bufferRawSrv := fun h => h + 100,
    bufferRawUav := fun h => h + 200, frameDescriptorSet := 77,
    frameConstantsOffset := 88 }

/-- A raster builder carrying one raw descriptor-set override `(1, 7)`. -/
def rb1 : RenderPassRasterPipelineBinding :=
  (RenderPassRasterPipelineBinding.new 0).raw_descriptor_set 1 7

/-- A compute builder carrying one raw descriptor-set override `(1, 7)`. -/
def cbind1 : RenderPassComputePipelineBinding :=
  (RenderPassComputePipelineBinding.new 0).raw_descriptor_set 1 7

/-! ### Claims -/

/-- C2: for every input binding list of `bind_descriptor_set` and every target
set index present in the pipeline's declared layout, a descriptor write is
produced for a binding position exactly when that index is declared in the
layout for that set (the write indices are precisely the declared positions of
the input list, in order), and the materialized set is bound at the target
index. -/
theorem bind_descriptor_set_write_filtering (pl : ShaderPipelineCommon)
    (set_index : Nat) (bindings : List DescriptorSetBinding)
    (st st2 : ExecState) (info : List Nat)
    (hinfo : pl.setLayoutInfo.get? set_index = some info)
    (h : bind_descriptor_set pl set_index bindings st = some st2) :
    ∃ writes, descriptorWrites info st.nextSetId bindings = some writes ∧
      writes.map WriteDescriptorSet.dstBinding
        = (List.range bindings.length).filter (fun i => info.contains i) ∧
      st2.trace = st.trace ++
        [Cmd.updateDescriptorSets writes,
         Cmd.bindDescriptorSets pl.pipelineBindPoint pl.pipelineLayout set_index
           [st.nextSetId] []] := by
  obtain ⟨writes, hw, hst2⟩ :=
    bind_descriptor_set_success pl set_index bindings st st2 info hinfo h
  exact ⟨writes, hw, descriptorWrites_map_dstBinding _ _ _ _ hw, by rw [hst2]⟩

/-- C2 witness: the spec scenario — the pipeline declares only binding index 0
at set 0, the caller supplies bindings for indices 0 and 1; exactly one write
(index 0) results and the set is bound, with no error. -/
theorem bind_descriptor_set_write_filtering_witness :
    ∃ writes,
      descriptorWrites [0] st0.nextSetId [bufBinding 5, bufBinding 6] = some writes ∧
      writes.map WriteDescriptorSet.dstBinding
        = (List.range [bufBinding 5, bufBinding 6].length).filter
            (fun i => ([0] : List Nat).contains i) ∧
      ({ trace := [Cmd.updateDescriptorSets
            [{ dstSet := 0, dstBinding := 0, dstArrayElement := 0,
               descriptorType := .storageBuffer, payload := bufBinding 5 }],
          Cmd.bindDescriptorSets 3 2 0 [0] []],
         nextPoolId := 1, nextSetId := 1, deferredRelease := [0],
         log := [] } : ExecState).trace
        = st0.trace ++
          [Cmd.updateDescriptorSets writes,
           Cmd.bindDescriptorSets pl0.pipelineBindPoint pl0.pipelineLayout 0
             [st0.nextSetId] []] :=
  bind_descriptor_set_write_filtering pl0 0 [bufBinding 5, bufBinding 6] st0 _ [0]
    (by rfl) (by rfl)

/-- C5: `bind()` on a shader-read image reference always yields an Image
binding with shader-read-only-optimal layout; on a shader-write image
reference, general layout.  The layout is a constant of the access mode and
never caller-supplied. -/
theorem image_bind_layouts :
    (∀ (r : RefImageSrv) (vd : Nat),
      r.bind vd = RenderPassBinding.Image
        { handle := r.handle, viewDesc := vd,
          imageLayout := .shaderReadOnlyOptimal }) ∧
    (∀ (r : RefImageUav) (vd : Nat),
      r.bind vd = RenderPassBinding.Image
        { handle := r.handle, viewDesc := vd, imageLayout := .general }) :=
  ⟨fun _ _ => rfl, fun _ _ => rfl⟩

/-- C6: descriptor-type resolution for a retained binding is a function of the
binding's tag and image layout: Image+shader-read-only-optimal → sampled
image; Image+general → storage image; Image with any other layout → fatal
(`unimplemented!`, modelled as `none`); Buffer → storage buffer, and the
buffer info produced at conversion covers `WHOLE_SIZE`. -/
theorem descriptor_type_resolution :
    (∀ ds idx iv, resolveWrite ds idx
        (.Image { imageLayout := .shaderReadOnlyOptimal, imageView := iv })
      = some { dstSet := ds, dstBinding := idx, dstArrayElement := 0,
               descriptorType := .sampledImage,
               payload := .Image { imageLayout := .shaderReadOnlyOptimal,
                                   imageView := iv } }) ∧
    (∀ ds idx iv, resolveWrite ds idx
        (.Image { imageLayout := .general, imageView := iv })
      = some { dstSet := ds, dstBinding := idx, dstArrayElement := 0,
               descriptorType := .storageImage,
               payload := .Image { imageLayout := .general, imageView := iv } }) ∧
    (∀ ds idx code iv, resolveWrite ds idx
        (.Image { imageLayout := .other code, imageView := iv }) = none) ∧
    (∀ ds idx info, resolveWrite ds idx (.Buffer info)
      = some { dstSet := ds, dstBinding := idx, dstArrayElement := 0,
               descriptorType := .storageBuffer, payload := .Buffer info }) ∧
    (∀ (res : ResourceRegistry) (h : Nat),
      convertBinding res (RenderPassBinding.Buffer { handle := h })
        = .Buffer { buffer := res.bufferRawSrv h, range := wholeSize }) :=
  ⟨fun _ _ _ => rfl, fun _ _ _ => rfl, fun _ _ _ _ => rfl, fun _ _ _ => rfl,
   fun _ _ => rfl⟩

/-- C7: when the target set index does not exist in the pipeline's declared
layout, `bind_descriptor_set` is a logged no-op: it returns successfully with
the trace, allocation counters and deferred-release queue unchanged, appending
only a diagnostic entry. -/
theorem bind_descriptor_set_missing_index_noop (pl : ShaderPipelineCommon)
    (set_index : Nat) (bindings : List DescriptorSetBinding) (st : ExecState)
    (h : pl.setLayoutInfo.get? set_index = none) :
    bind_descriptor_set pl set_index bindings st
      = some { st with log := st.log ++ [set_index] } := by
  unfold bind_descriptor_set
  rw [h]

/-- C7 witness: binding set index 3 against a pipeline with no declared sets
is a pure log-and-return no-op. -/
theorem bind_descriptor_set_missing_index_noop_witness :
    bind_descriptor_set plE 3 [bufBinding 5] st0
      = some { st0 with log := st0.log ++ [3] } :=
  bind_descriptor_set_missing_index_noop plE 3 [bufBinding 5] st0 rfl

/-- C9: buffer `bind()` erases the access mode — the shader-read and
shader-write buffer references produce the same `RenderPassBinding` carrying
only the handle, and materialization resolves both through the registry's
shader-read (`GpuSrv`) buffer path. -/
theorem buffer_bind_erases_access_mode :
    (∀ h : Nat, RefBufferSrv.bind { handle := h } = RefBufferUav.bind { handle := h }) ∧
    (∀ h : Nat, RefBufferSrv.bind { handle := h }
      = RenderPassBinding.Buffer { handle := h }) ∧
    (∀ (res : ResourceRegistry) (h : Nat),
      convertBinding res (RefBufferSrv.bind { handle := h })
        = .Buffer { buffer := res.bufferRawSrv h, range := wholeSize } ∧
      convertBinding res (RefBufferUav.bind { handle := h })
        = .Buffer { buffer := res.bufferRawSrv h, range := wholeSize }) :=
  ⟨fun _ => rfl, fun _ => rfl, fun _ _ => ⟨rfl, rfl⟩⟩

/-- C1 (code bug): the compute bind operation does bind each raw descriptor-set
override directly at its set index with no writes and no dynamic offsets, but
the raster bind operation silently drops its accumulated raw overrides: with
the override `(1, 7)` accumulated, `bind_raster_pipeline` emits only the
pipeline-bind command and no descriptor-set bind at all, while
`bind_compute_pipeline` with the same override emits the direct bind
`(set 1, [7], no offsets)`. -/
theorem raw_descriptor_set_compute_bound_raster_dropped :
    rb1.raw_bindings = [(1, 7)] ∧
    bind_raster_pipeline res1 rb1 st0
      = some ({ trace := [Cmd.bindPipeline plE.pipelineBindPoint plE.pipeline],
                nextPoolId := 0, nextSetId := 0, deferredRelease := [],
                log := [] }, rp1) ∧
    ([Cmd.bindPipeline plE.pipelineBindPoint plE.pipeline].all
        (fun c => !c.isBindDescriptorSets)) = true ∧
    bind_compute_pipeline res1 cbind1 st0
      = some ({ trace := [Cmd.bindPipeline plF.pipelineBindPoint plF.pipeline,
                  Cmd.bindDescriptorSets plF.pipelineBindPoint plF.pipelineLayout 2
                    [res1.frameDescriptorSet] [res1.frameConstantsOffset],
                  Cmd.bindDescriptorSets plF.pipelineBindPoint plF.pipelineLayout 1
                    [7] []],
                nextPoolId := 0, nextSetId := 0, deferredRelease := [],
                log := [] }, cp1) :=
  ⟨rfl, rfl, rfl, rfl⟩

/-- C3: both pipeline-bind operations record the pipeline bind, then the
frame-constants commands, then all pass-declared materializations, then (for
compute) the raw overrides; and the frame-constants commands consist of exactly
one bind of the per-frame set with its dynamic offset at set index 2 when the
layout declares a non-empty set 2, and nothing when set 2 is absent or
empty. -/
theorem frame_constants_auto_bind (res : ResourceRegistry) :
    (∀ (binding : RenderPassComputePipelineBinding) (st st2 : ExecState)
        (pipeline : ComputePipeline),
      bind_compute_pipeline res binding st = some (st2, pipeline) →
      ∃ declaredExt,
        st2.trace = st.trace
          ++ [Cmd.bindPipeline pipeline.common.pipelineBindPoint
                pipeline.common.pipeline]
          ++ frameConstantsCmds res pipeline.common
          ++ declaredExt
          ++ rawBindCmds pipeline.common binding.raw_bindings) ∧
    (∀ (binding : RenderPassRasterPipelineBinding) (st st2 : ExecState)
        (pipeline : RasterPipeline),
      bind_raster_pipeline res binding st = some (st2, pipeline) →
      ∃ declaredExt,
        st2.trace = st.trace
          ++ [Cmd.bindPipeline pipeline.common.pipelineBindPoint
                pipeline.common.pipeline]
          ++ frameConstantsCmds res pipeline.common
          ++ declaredExt) ∧
    (∀ (pl : ShaderPipelineCommon) (s : List Nat),
      pl.setLayoutInfo.get? 2 = some s → s ≠ [] →
      frameConstantsCmds res pl
        = [Cmd.bindDescriptorSets pl.pipelineBindPoint pl.pipelineLayout 2
            [res.frameDescriptorSet] [res.frameConstantsOffset]]) ∧
    (∀ pl : ShaderPipelineCommon,
      (∀ s, pl.setLayoutInfo.get? 2 = some s → s = []) →
      frameConstantsCmds res pl = []) := by
  refine ⟨?_, ?_, ?_, ?_⟩
  · intro binding st st2 pipeline h
    simp only [bind_compute_pipeline] at h
    split at h
    · cases h
    · next stm heq =>
      simp only [Option.some.injEq, Prod.mk.injEq] at h
      obtain ⟨hst2, hpipe⟩ := h
      subst hpipe
      obtain ⟨ext, hext⟩ := bindDeclaredSets_trace_ext res _ _ _ stm heq
      refine ⟨ext, ?_⟩
      rw [← hst2]
      simp only [ExecState.trace] at hext ⊢
      rw [hext]
  · intro binding st st2 pipeline h
    simp only [bind_raster_pipeline] at h
    split at h
    · cases h
    · next stm heq =>
      simp only [Option.some.injEq, Prod.mk.injEq] at h
      obtain ⟨hst2, hpipe⟩ := h
      subst hpipe
      obtain ⟨ext, hext⟩ := bindDeclaredSets_trace_ext res _ _ _ stm heq
      refine ⟨ext, ?_⟩
      rw [← hst2]
      simp only [ExecState.trace] at hext ⊢
      rw [hext]
  · intro pl s hg hne
    have hb : frameConstantsNeeded pl = true := by
      unfold frameConstantsNeeded
      rw [hg]
      simp [List.isEmpty_iff, hne]
    simp [frameConstantsCmds, hb]
  · intro pl hall
    have hb : frameConstantsNeeded pl = false := by
      unfold frameConstantsNeeded
      cases hg : pl.setLayoutInfo.get? 2 with
      | none => rfl
      | some s => simp [hall s hg]
    simp [frameConstantsCmds, hb]

/-- C3 witness: binding a compute pipeline with a non-empty set 2 places the
frame-constants bind right after the pipeline bind; the frame-constants
commands are exactly that one bind for `plF` and empty for `plE`. -/
theorem frame_constants_auto_bind_witness :
    (∃ declaredExt,
      ({ trace := [Cmd.bindPipeline plF.pipelineBindPoint plF.pipeline,
          Cmd.bindDescriptorSets plF.pipelineBindPoint plF.pipelineLayout 2
            [res1.frameDescriptorSet] [res1.frameConstantsOffset]],
         nextPoolId := 0, nextSetId := 0, deferredRelease := [],
         log := [] } : ExecState).trace
        = st0.trace
          ++ [Cmd.bindPipeline cp1.common.pipelineBindPoint cp1.common.pipeline]
          ++ frameConstantsCmds res1 cp1.common
          ++ declaredExt
          ++ rawBindCmds cp1.common (RenderPassComputePipelineBinding.new 0).raw_bindings) ∧
    frameConstantsCmds res1 plF
      = [Cmd.bindDescriptorSets plF.pipelineBindPoint plF.pipelineLayout 2
          [res1.frameDescriptorSet] [res1.frameConstantsOffset]] ∧
    frameConstantsCmds res1 plE = [] :=
  ⟨(frame_constants_auto_bind res1).1 (RenderPassComputePipelineBinding.new 0)
      st0 _ cp1 (by rfl),
   (frame_constants_auto_bind res1).2.2.1 plF [3] rfl (by decide),
   (frame_constants_auto_bind res1).2.2.2 plE (fun s hs => by cases hs)⟩

/-- C4: every successful `dispatch` records a device dispatch whose per-axis
group count is the ceiling division of the requested thread count by the
pipeline's declared group size on that axis, independently. -/
theorem dispatch_ceiling_group_counts (pipeline : ComputePipeline)
    (threads : UVec3) (st st2 : ExecState)
    (h : dispatch pipeline threads st = some st2) :
    st2.trace = st.trace ++
      [Cmd.dispatch (threads.x ⌈/⌉ pipeline.groupSize.x)
        (threads.y ⌈/⌉ pipeline.groupSize.y)
        (threads.z ⌈/⌉ pipeline.groupSize.z)] := by
  unfold dispatch at h
  split at h
  · next gx gy gz hx hy hz =>
    simp only [Option.some.injEq] at h
    rw [← h]
    simp only [ExecState.trace]
    rw [checkedDispatchAxis_eq_ceilDiv _ _ _ hx,
      checkedDispatchAxis_eq_ceilDiv _ _ _ hy,
      checkedDispatchAxis_eq_ceilDiv _ _ _ hz]
  · cases h

/-- C4 witness: the spec's example — threads `[65, 1, 1]` with group size
`[64, 1, 1]` records dispatch `[2, 1, 1]`, and `2 = ⌈65 / 64⌉`. -/
theorem dispatch_ceiling_group_counts_witness :
    ({ trace := [Cmd.dispatch 2 1 1], nextPoolId := 0, nextSetId := 0,
       deferredRelease := [], log := [] } : ExecState).trace
      = st0.trace ++
        [Cmd.dispatch ((65 : Nat) ⌈/⌉ 64) ((1 : Nat) ⌈/⌉ 1) ((1 : Nat) ⌈/⌉ 1)] :=
  dispatch_ceiling_group_counts cp1 { x := 65, y := 1, z := 1 } st0 _ (by rfl)

/-- C8: `descriptor_set` on either builder appends exactly one pair (repeated
indices retained, other fields untouched); the consuming operation processes
the accumulated pairs head-first through materialization in declaration order;
`bind_compute_pipeline` is exactly that sequential processing of its
accumulated list; and each declared pair allocates exactly one descriptor set
and emits its write batch and bind. -/
theorem descriptor_set_accumulation_and_order (res : ResourceRegistry) :
    (∀ (b : RenderPassComputePipelineBinding) (i : Nat)
        (l : List RenderPassBinding),
      (b.descriptor_set i l).bindings = b.bindings ++ [(i, l)] ∧
      (b.descriptor_set i l).raw_bindings = b.raw_bindings ∧
      (b.descriptor_set i l).pipeline = b.pipeline) ∧
    (∀ (b : RenderPassRasterPipelineBinding) (i : Nat)
        (l : List RenderPassBinding),
      (b.descriptor_set i l).bindings = b.bindings ++ [(i, l)] ∧
      (b.descriptor_set i l).raw_bindings = b.raw_bindings ∧
      (b.descriptor_set i l).pipeline = b.pipeline) ∧
    (∀ (pl : ShaderPipelineCommon) (p : Nat × List RenderPassBinding)
        (rest : List (Nat × List RenderPassBinding)) (st : ExecState),
      bindDeclaredSets res pl (p :: rest) st
        = (bind_descriptor_set pl p.1 (p.2.map (convertBinding res)) st).bind
            (bindDeclaredSets res pl rest)) ∧
    (∀ (binding : RenderPassComputePipelineBinding) (st : ExecState),
      bind_compute_pipeline res binding st
        = Option.map
            (fun st2 =>
              ({ st2 with trace := (st2.trace
                  ++ rawBindCmds (res.computePipelines binding.pipeline).common
                      binding.raw_bindings) },
               res.computePipelines binding.pipeline))
            (bindDeclaredSets res (res.computePipelines binding.pipeline).common
              binding.bindings
              { st with trace := (st.trace
                  ++ [Cmd.bindPipeline
                        (res.computePipelines binding.pipeline).common.pipelineBindPoint
                        (res.computePipelines binding.pipeline).common.pipeline]
                  ++ frameConstantsCmds res
                      (res.computePipelines binding.pipeline).common) })) ∧
    (∀ (pl : ShaderPipelineCommon) (set_index : Nat)
        (bindings : List DescriptorSetBinding) (st st2 : ExecState)
        (info : List Nat),
      pl.setLayoutInfo.get? set_index = some info →
      bind_descriptor_set pl set_index bindings st = some st2 →
      st2.nextSetId = st.nextSetId + 1 ∧
      ∃ writes, st2.trace = st.trace ++
          [Cmd.updateDescriptorSets writes,
           Cmd.bindDescriptorSets pl.pipelineBindPoint pl.pipelineLayout
             set_index [st.nextSetId] []]) := by
  refine ⟨fun _ _ _ => ⟨rfl, rfl, rfl⟩, fun _ _ _ => ⟨rfl, rfl, rfl⟩, ?_, ?_, ?_⟩
  · intro pl p rest st
    cases hb : bind_descriptor_set pl p.1 (p.2.map (convertBinding res)) st <;>
      simp [bindDeclaredSets, hb]
  · intro binding st
    simp only [bind_compute_pipeline]
    split
    · next heq => rw [heq]; rfl
    · next stm heq => rw [heq]; rfl
  · intro pl set_index bindings st st2 info hinfo h
    obtain ⟨writes, _, hst2⟩ :=
      bind_descriptor_set_success pl set_index bindings st st2 info hinfo h
    exact ⟨by rw [hst2], writes, by rw [hst2]⟩

/-- C8 witness: one appended pair `(0, [bufBinding 5])` against a layout
declaring binding 0 at set 0 allocates exactly one set and emits its write
batch and bind. -/
theorem descriptor_set_accumulation_and_order_witness :
    ({ trace := [Cmd.updateDescriptorSets
          [{ dstSet := 0, dstBinding := 0, dstArrayElement := 0,
             descriptorType := .storageBuffer, payload := bufBinding 5 }],
        Cmd.bindDescriptorSets 3 2 0 [0] []],
       nextPoolId := 1, nextSetId := 1, deferredRelease := [0],
       log := [] } : ExecState).nextSetId = st0.nextSetId + 1 ∧
    ∃ writes,
      ({ trace := [Cmd.updateDescriptorSets
            [{ dstSet := 0, dstBinding := 0, dstArrayElement := 0,
               descriptorType := .storageBuffer, payload := bufBinding 5 }],
          Cmd.bindDescriptorSets 3 2 0 [0] []],
         nextPoolId := 1, nextSetId := 1, deferredRelease := [0],
         log := [] } : ExecState).trace
        = st0.trace ++
          [Cmd.updateDescriptorSets writes,
           Cmd.bindDescriptorSets pl0.pipelineBindPoint pl0.pipelineLayout 0
             [st0.nextSetId] []] :=
  (descriptor_set_accumulation_and_order res1).2.2.2.2 pl0 0 [bufBinding 5]
    st0 _ [0] (by rfl) (by rfl)

/-- C10 counterexample: the claim's own preconditions (`group_size ≥ 1` and
`threads ≤ 2^32 − group_size`) hold at `threads = 2^32 − 1`,
`group_size = 1`, yet the `u32` addition `threads + group_size` overflows and
the dispatch panics. -/
theorem dispatch_overflow_boundary_counterexample :
    (1 ≤ 1 ∧ (2 ^ 32 - 1 : Nat) ≤ 2 ^ 32 - 1) ∧
    checkedDispatchAxis (2 ^ 32 - 1) 1 = none ∧
    dispatch cp2 { x := 2 ^ 32 - 1, y := 1, z := 1 } st0 = none :=
  ⟨⟨le_refl 1, le_refl _⟩, by decide, by decide⟩

/-- C10 (amended): each axis computes `(threads + group_size − 1) /
group_size`; it is panic-free exactly when `group_size ≥ 1` and
`threads + group_size ≤ 2^32 − 1`; under those preconditions zero threads
yield a zero group count; and a dispatch succeeds exactly when all three axes
do. -/
theorem dispatch_panic_free_characterization :
    (∀ t g : Nat,
      (checkedDispatchAxis t g).isSome = true ↔ (1 ≤ g ∧ t + g ≤ u32Max)) ∧
    (∀ t g v : Nat, checkedDispatchAxis t g = some v → v = (t + g - 1) / g) ∧
    (∀ g : Nat, 1 ≤ g → g ≤ u32Max → checkedDispatchAxis 0 g = some 0) ∧
    (∀ (pipeline : ComputePipeline) (threads : UVec3) (st : ExecState),
      (dispatch pipeline threads st).isSome = true ↔
        ((checkedDispatchAxis threads.x pipeline.groupSize.x).isSome = true ∧
         (checkedDispatchAxis threads.y pipeline.groupSize.y).isSome = true ∧
         (checkedDispatchAxis threads.z pipeline.groupSize.z).isSome = true)) := by
  refine ⟨?_, ?_, ?_, ?_⟩
  · intro t g
    have hu : u32Max = 4294967295 := by norm_num [u32Max]
    rw [hu]
    unfold checkedDispatchAxis
    rw [hu]
    split_ifs with h1 h2 h3 <;> simp <;> omega
  · intro t g v h
    rw [checkedDispatchAxis_eq_ceilDiv t g v h, Nat.ceilDiv_eq_add_pred_div]
  · intro g h1 h2
    unfold checkedDispatchAxis
    have hgt : ¬ (0 + g > u32Max) := by omega
    have hz : ¬ (0 + g = 0) := by omega
    have hg0 : ¬ (g = 0) := by omega
    rw [if_neg hgt, if_neg hz, if_neg hg0]
    congr 1
    exact Nat.div_eq_of_lt (by omega)
  · intro pipeline threads st
    cases hx : checkedDispatchAxis threads.x pipeline.groupSize.x <;>
      cases hy : checkedDispatchAxis threads.y pipeline.groupSize.y <;>
      cases hz : checkedDispatchAxis threads.z pipeline.groupSize.z <;>
      simp [dispatch, hx, hy, hz]

/-- C10 witness: `⌈65/64⌉ = (65 + 64 − 1) / 64` from a successful axis, and a
zero thread count with group size 64 yields zero groups. -/
theorem dispatch_panic_free_characterization_witness :
    (2 : Nat) = (65 + 64 - 1) / 64 ∧ checkedDispatchAxis 0 64 = some 0 :=
  ⟨dispatch_panic_free_characterization.2.1 65 64 2 (by rfl),
   dispatch_panic_free_characterization.2.2.1 64 (by decide) (by decide)⟩

end PassApi
